import Mathlib

/-!
Verification of the muta-technical-test order-management backend.

This file gives a shallow embedding, in Lean 4, of the core of the
repository: the in-memory order repository
(`apps/backend/src/repositories/InMemoryOrderRepository.ts`), the
order service (`apps/backend/src/services/OrderService.ts`), the
Socket.IO notification service
(`apps/backend/src/services/NotificationService.ts`), the WebSocket
message-authentication middleware (`websocketAuth.ts`) together with
the `message` handler of `apps/backend/src/index.ts`, and the Joi
schema `requestSchemas.websocketMessage`
(`apps/backend/src/schemas/validation.ts`).

Modelling conventions:
- JavaScript `Map<string, Order>` is modelled as a `List Order` in
  insertion order with unique keys; `Map.get`/`set`/`delete` become
  first-occurrence lookup/replace/remove, which agree with `Map` on
  every store reachable through the repository API.
- `Date` values are modelled as `Nat` millisecond timestamps; each
  operation takes the current time as an explicit `now` parameter.
- Thrown exceptions are modelled with `Except`; the in-place mutation
  of the backing map survives a later `throw`, so service operations
  return the post-mutation store alongside the `Except` result.
- `io.emit` (broadcast) is modelled as appending the message to an
  event log; a `broadcastFails` flag models the possibility that the
  emit call throws (the `catch { log; throw }` blocks in
  `NotificationService` re-raise such an error).
- `Array.prototype.sort(comparator)` is modelled as a stable
  insertion sort driven by the integer comparator, matching the
  stable sort required by ES2019.
- JavaScript string `<`/`>` is code-unit lexicographic order,
  modelled on the code points of the string; `toLowerCase` is
  modelled per-character with `Char.toLower` (ASCII case mapping).
- JavaScript truthiness checks on strings (`if (filters.search)`,
  `!id`, `config.websocket.apiKey && ...`) are modelled by explicit
  emptiness tests; absent optional values are `Option.none`.
-/

namespace Muta

/-! ## Data model (`packages/shared/src/types.ts`) -/

/-- Model of `OrderStatus` enum from `packages/shared/src/types.ts`. -/
inductive OrderStatus where
  | pending
  | enRoute
  | inProcess
  | completed
  | cancelled
  deriving DecidableEq, Repr

/-- The string value of each `OrderStatus` enum member
(`PENDING = 'pending'`, `EN_ROUTE = 'in-route'`,
`IN_PROCESS = 'in-progress'`, `COMPLETED = 'completed'`,
`CANCELLED = 'cancelled'`). -/
def OrderStatus.value : OrderStatus → String
  | .pending => "pending"
  | .enRoute => "in-route"
  | .inProcess => "in-progress"
  | .completed => "completed"
  | .cancelled => "cancelled"

/-- The `Order` entity: `{id, address, status, collectorName, lastUpdated}`. -/
structure Order where
  id : String
  address : String
  status : OrderStatus
  collectorName : String
  lastUpdated : Nat
  deriving DecidableEq, Repr

/-- Model of `OrderFilters` from the shared types: both fields optional. -/
structure OrderFilters where
  status : Option OrderStatus
  search : Option String
  deriving DecidableEq, Repr

/-- The sortable fields accepted for `pagination.sortBy`. -/
inductive SortField where
  | id
  | address
  | status
  | collectorName
  | lastUpdated
  deriving DecidableEq, Repr

/-- Model of `sortOrder: 'asc' | 'desc'`. -/
inductive SortDir where
  | asc
  | desc
  deriving DecidableEq, Repr

/-- Model of `PaginationOptions` of `IOrderRepository`: `page`, `limit` and the
optional sort parameters. Pages are 1-based; the model (like the
route-validated callers) uses natural numbers. -/
structure PaginationOptions where
  page : Nat
  limit : Nat
  sortBy : Option SortField
  sortOrder : Option SortDir
  deriving DecidableEq, Repr

/-- The `pagination` part of `PaginatedResult`. `totalPages` is
`Option Nat`: `none` models the non-finite JavaScript number
(`Infinity` or `NaN`) produced by `Math.ceil(total / 0)`. -/
structure PageMeta where
  page : Nat
  limit : Nat
  total : Nat
  totalPages : Option Nat
  deriving DecidableEq, Repr

/-- Model of `PaginatedResult<Order>`. -/
structure PaginatedResult where
  data : List Order
  pagination : PageMeta
  deriving DecidableEq, Repr

/-! ## JavaScript string primitives -/

/-- JavaScript string `<` (lexicographic by code unit), modelled on
code points; decidable and kernel-evaluable. -/
def lexLt : List Char → List Char → Bool
  | [], [] => false
  | [], _ :: _ => true
  | _ :: _, [] => false
  | a :: as, b :: bs =>
    if a.val < b.val then true
    else if b.val < a.val then false
    else lexLt as bs

/-- String comparison used by the generic sort comparator. -/
def strLt (x y : String) : Bool := lexLt x.data y.data

/-- Model of `String.prototype.toLowerCase` (ASCII case mapping). -/
def jsToLower (s : String) : String := ⟨s.data.map Char.toLower⟩

/-- Substring test on character lists (`String.prototype.includes`). -/
def containsSub (hay needle : List Char) : Bool :=
  needle.isPrefixOf hay ||
    (match hay with
     | [] => false
     | _ :: t => containsSub t needle)

/-- Model of `s.includes(sub)`. -/
def jsIncludes (s sub : String) : Bool := containsSub s.data sub.data

/-- The three-way comparator body of `findByFilters`:
`comparison = 0; if (aValue < bValue) comparison = -1;
if (aValue > bValue) comparison = 1;`. -/
def cmp3 (lt : α → α → Bool) (a b : α) : Int :=
  if lt a b then -1 else if lt b a then 1 else 0

/-- The value comparison for a given sort field: strings compare by
code units, the status enum by its string value, `lastUpdated` (a
`Date`) by its millisecond value. -/
def fieldCmp (f : SortField) (a b : Order) : Int :=
  match f with
  | .id => cmp3 strLt a.id b.id
  | .address => cmp3 strLt a.address b.address
  | .status => cmp3 strLt a.status.value b.status.value
  | .collectorName => cmp3 strLt a.collectorName b.collectorName
  | .lastUpdated => cmp3 (fun x y => decide (x < y)) a.lastUpdated b.lastUpdated

/-- Model of `pagination.sortOrder === 'desc' ? -comparison : comparison`. -/
def dirCmp (d : Option SortDir) (c : Int) : Int :=
  if d = some .desc then -c else c

/-- Stable insertion of one element under an integer comparator:
`x` is placed before the first element it does not compare
strictly-after. Together with `sortCmp` this computes the unique
stable sorted permutation, the result mandated for
`Array.prototype.sort` with a consistent comparator. -/
def insertCmp (c : Order → Order → Int) (x : Order) : List Order → List Order
  | [] => [x]
  | y :: ys => if 0 < c x y then y :: insertCmp c x ys else x :: y :: ys

/-- Stable comparator sort (model of `Array.prototype.sort`). -/
def sortCmp (c : Order → Order → Int) : List Order → List Order
  | [] => []
  | x :: xs => insertCmp c x (sortCmp c xs)

/-! ## In-memory order repository
(`repositories/InMemoryOrderRepository.ts`)

The backing `Map<string, Order>` is a list in insertion order. -/

/-- The repository store: the values of `this.orders`, in insertion
order. -/
abbrev Store := List Order

/-- Error taxonomy of the modelled operations
(`middleware/errorHandler.ts` classes, by message). -/
inductive SvcError where
  | validationError (msg : String)
  | notifyFailed
  deriving DecidableEq, Repr

namespace InMemoryOrderRepository

/-- Model of `this.orders.has(id)`. -/
def hasId (st : Store) (id : String) : Bool := st.any (fun o => o.id = id)

/-- Model of `this.orders.set(order.id, order)`: replace the existing entry in
place, else append. -/
def setEntry : Store → Order → Store
  | [], o => [o]
  | e :: rest, o => if e.id = o.id then o :: rest else e :: setEntry rest o

/-- Model of `this.orders.delete(id)`: remove the entry with the given key. -/
def deleteEntry : Store → String → Store
  | [], _ => []
  | e :: rest, id => if e.id = id then rest else e :: deleteEntry rest id

/-- Model of `create(order)`: reject a duplicate id with a `ValidationError`,
otherwise store a copy with `lastUpdated` refreshed and return it. -/
def create (st : Store) (o : Order) (now : Nat) :
    Except SvcError (Store × Order) :=
  if hasId st o.id then
    .error (.validationError ("Order with ID " ++ o.id ++ " already exists"))
  else
    let newOrder : Order := { o with lastUpdated := now }
    .ok (setEntry st newOrder, newOrder)

/-- Model of `create` as a store transformer: on a duplicate-key error the
(`try`/`catch` re-thrown) exception leaves the map untouched, so the
caller keeps the old store. The `Bool` records success. -/
def createStep (st : Store) (o : Order) (now : Nat) : Store × Bool :=
  match create st o now with
  | .ok (st', _) => (st', true)
  | .error _ => (st, false)

/-- Fold a sequence of `create` calls (each with its own timestamp)
over a store; failed creates leave the store unchanged. -/
def applyCreates (st : Store) (calls : List (Order × Nat)) : Store :=
  match calls with
  | [] => st
  | (o, t) :: rest => applyCreates (createStep st o t).1 rest

/-- Model of `findById(id)`: `this.orders.get(id) || null`. -/
def findById (st : Store) (id : String) : Option Order :=
  st.find? (fun o => o.id = id)

/-- A partial order payload (`Partial<Order>`): every field optional.
An absent field is `none`. (JavaScript objects can also carry a key
explicitly set to `undefined`; validated callers never produce that
shape, and the model identifies it with the absent key.) -/
structure OrderUpdate where
  id : Option String
  address : Option String
  status : Option OrderStatus
  collectorName : Option String
  lastUpdated : Option Nat
  deriving DecidableEq, Repr

/-- Model of `Object.keys(updateData).length` for an `OrderUpdate`. -/
def OrderUpdate.keyCount (u : OrderUpdate) : Nat :=
  (if u.id.isSome then 1 else 0) +
  (if u.address.isSome then 1 else 0) +
  (if u.status.isSome then 1 else 0) +
  (if u.collectorName.isSome then 1 else 0) +
  (if u.lastUpdated.isSome then 1 else 0)

/-- The update payload with no keys (`{}`). -/
def OrderUpdate.empty : OrderUpdate := ⟨none, none, none, none, none⟩

/-- The spread merge
`{...existingOrder, ...updateData, id: existingOrder.id, lastUpdated: new Date()}`:
supplied fields win over existing ones, then `id` is forced back to
the existing id and `lastUpdated` to the current time. -/
def mergeOrder (existing : Order) (u : OrderUpdate) (now : Nat) : Order :=
  { id := existing.id
    address := u.address.getD existing.address
    status := u.status.getD existing.status
    collectorName := u.collectorName.getD existing.collectorName
    lastUpdated := now }

/-- Model of `update(id, updateData)`: `null` when the id is absent, otherwise
store and return the shallow merge. -/
def update (st : Store) (id : String) (u : OrderUpdate) (now : Nat) :
    Store × Option Order :=
  match findById st id with
  | none => (st, none)
  | some existing =>
    let updatedOrder := mergeOrder existing u now
    (setEntry st updatedOrder, some updatedOrder)

/-- Model of `delete(id)`: report whether the id existed and remove it. -/
def delete (st : Store) (id : String) : Store × Bool :=
  if hasId st id then (deleteEntry st id, true) else (st, false)

/-! ### `findByFilters` pipeline -/

/-- Status filter stage: `if (filters.status) { orders.filter(...) }`.
Every enum string value is non-empty, so presence is truthiness. -/
def applyStatusFilter (f : OrderFilters) (orders : List Order) : List Order :=
  match f.status with
  | some s => orders.filter (fun o => o.status = s)
  | none => orders

/-- Search filter stage: `if (filters.search) { ... }` — an empty
search string is falsy in JavaScript and disables the stage; otherwise
a case-insensitive substring test over `id`, `collectorName`,
`address` with OR semantics. -/
def applySearchFilter (f : OrderFilters) (orders : List Order) : List Order :=
  match f.search with
  | some term =>
    if term = "" then orders
    else
      let searchTerm := jsToLower term
      orders.filter (fun o =>
        jsIncludes (jsToLower o.id) searchTerm ||
        jsIncludes (jsToLower o.collectorName) searchTerm ||
        jsIncludes (jsToLower o.address) searchTerm)
  | none => orders

/-- Sort stage for a given `sortBy`/`sortOrder` pair. -/
def sortStage (sb : Option SortField) (sd : Option SortDir)
    (orders : List Order) : List Order :=
  match sb with
  | some f => sortCmp (fun a b => dirCmp sd (fieldCmp f a b)) orders
  | none => orders

/-- Model of `if (pagination?.sortBy) { orders.sort(...) }`: sorting happens
only when a pagination object with a `sortBy` field is supplied. -/
def applySort (p : Option PaginationOptions) (orders : List Order) : List Order :=
  match p with
  | some pag => sortStage pag.sortBy pag.sortOrder orders
  | none => orders

/-- Model of `if (pagination) { orders.slice(startIndex, startIndex + limit) }`
with `startIndex = (page - 1) * limit` (pages are 1-based). -/
def applySlice (p : Option PaginationOptions) (orders : List Order) : List Order :=
  match p with
  | some pag => ((orders.drop ((pag.page - 1) * pag.limit)).take pag.limit)
  | none => orders

/-- Model of `Math.ceil(total / limit)` on JavaScript numbers: `none` models
the non-finite result (`Infinity`/`NaN`) of dividing by `0`. -/
def jsCeilDiv (total limit : Nat) : Option Nat :=
  if limit = 0 then none else some ((total + limit - 1) / limit)

/-- Model of `findByFilters(filters, pagination?)`: status filter, then search
filter, then (only when requested) sort, then slice; the metadata
reproduces the `||` truthiness defaults of the source
(`pagination?.page || 1`, `pagination?.limit || total`). -/
def findByFilters (st : Store) (f : OrderFilters)
    (p : Option PaginationOptions) : PaginatedResult :=
  let orders0 := applyStatusFilter f st
  let orders1 := applySearchFilter f orders0
  let orders2 := applySort p orders1
  let total := orders2.length
  let sliced := applySlice p orders2
  { data := sliced
    pagination :=
      { page := match p with
          | some pag => if pag.page = 0 then 1 else pag.page
          | none => 1
        limit := match p with
          | some pag => if pag.limit = 0 then total else pag.limit
          | none => total
        total := total
        totalPages := match p with
          | some pag => jsCeilDiv total pag.limit
          | none => some 1 } }

end InMemoryOrderRepository

/-! ## Notification service (`services/NotificationService.ts`)

`io.emit(message.type, message)` delivers one typed event envelope;
the delivered messages are collected in an event log. Each
`notifyOrderX` wraps the order in a `WebSocketMessage` and broadcasts
it; its `catch` block logs and **re-throws**, so a broadcast failure
is surfaced to the caller. `broadcastFails` models whether the emit
call throws. -/

/-- Event types of the `WebSocketMessage` envelope. -/
inductive WSEventType where
  | orderCreated
  | orderUpdate
  | orderDeleted
  deriving DecidableEq, Repr

/-- Model of `WebSocketMessage`: `{type, data, timestamp}`. -/
structure WSMessage where
  type : WSEventType
  data : Order
  timestamp : Nat
  deriving DecidableEq, Repr

namespace SocketIONotificationService

/-- Model of `broadcast(message)`: emit appends to the delivered log; on
failure the error is logged and re-thrown. -/
def broadcast (broadcastFails : Bool) (m : WSMessage) (log : List WSMessage) :
    List WSMessage × Except SvcError Unit :=
  if broadcastFails then (log, .error .notifyFailed)
  else (log ++ [m], .ok ())

/-- Model of `notifyOrderCreated(order)`. -/
def notifyOrderCreated (broadcastFails : Bool) (o : Order) (now : Nat)
    (log : List WSMessage) : List WSMessage × Except SvcError Unit :=
  broadcast broadcastFails ⟨.orderCreated, o, now⟩ log

/-- Model of `notifyOrderUpdated(order)`. -/
def notifyOrderUpdated (broadcastFails : Bool) (o : Order) (now : Nat)
    (log : List WSMessage) : List WSMessage × Except SvcError Unit :=
  broadcast broadcastFails ⟨.orderUpdate, o, now⟩ log

/-- Model of `notifyOrderDeleted(order)`. -/
def notifyOrderDeleted (broadcastFails : Bool) (o : Order) (now : Nat)
    (log : List WSMessage) : List WSMessage × Except SvcError Unit :=
  broadcast broadcastFails ⟨.orderDeleted, o, now⟩ log

end SocketIONotificationService

/-! ## Order service (`services/OrderService.ts`)

Each operation returns the post-operation store, the post-operation
event log, and an `Except` result. The service `catch` blocks record
`lastError`, log, and re-throw; re-throwing is the identity on the
propagated error, and the in-place map mutation is not rolled back,
so the store returned on the error path is the mutated one. -/

/-- The body shape accepted by `createOrder`
(`Omit<Order, 'id' | 'lastUpdated'>`). -/
structure OrderInput where
  address : String
  status : OrderStatus
  collectorName : String
  deriving DecidableEq, Repr

namespace OrderService

open InMemoryOrderRepository SocketIONotificationService

/-- Model of `createOrder(orderData)`: build the order with a generated id
(`newId` parameter models `generateOrderId()`), delegate to the
repository, then notify. A notification failure is re-thrown after
logging, with the repository insert already performed. -/
def createOrder (broadcastFails : Bool) (st : Store) (inp : OrderInput)
    (newId : String) (now : Nat) (log : List WSMessage) :
    Store × List WSMessage × Except SvcError Order :=
  let order : Order := ⟨newId, inp.address, inp.status, inp.collectorName, now⟩
  match create st order now with
  | .error e => (st, log, .error e)
  | .ok (st', createdOrder) =>
    match notifyOrderCreated broadcastFails createdOrder now log with
    | (log', .ok _) => (st', log', .ok createdOrder)
    | (log', .error e) => (st', log', .error e)

/-- Model of `updateOrder(id, updateData)`: validates the id and rejects an
empty update object before touching the repository; on a successful
repository update it notifies (re-throwing a notification failure),
and maps a missing id to a `null` result. -/
def updateOrder (broadcastFails : Bool) (st : Store) (id : String)
    (u : OrderUpdate) (now : Nat) (log : List WSMessage) :
    Store × List WSMessage × Except SvcError (Option Order) :=
  if id = "" then
    (st, log, .error (.validationError "Invalid order ID"))
  else if u.keyCount = 0 then
    (st, log, .error (.validationError "No update data provided"))
  else
    match update st id u now with
    | (st', some updatedOrder) =>
      match notifyOrderUpdated broadcastFails updatedOrder now log with
      | (log', .ok _) => (st', log', .ok (some updatedOrder))
      | (log', .error e) => (st', log', .error e)
    | (st', none) => (st', log, .ok none)

/-- Model of `deleteOrder(id)`: validates the id, fetches the order before
deletion for the notification snapshot, returns `false` when absent,
otherwise deletes and notifies with the pre-delete snapshot
(re-throwing a notification failure). -/
def deleteOrder (broadcastFails : Bool) (st : Store) (id : String)
    (now : Nat) (log : List WSMessage) :
    Store × List WSMessage × Except SvcError Bool :=
  if id = "" then
    (st, log, .error (.validationError "Invalid order ID"))
  else
    match findById st id with
    | none => (st, log, .ok false)
    | some order =>
      match delete st id with
      | (st', true) =>
        match notifyOrderDeleted broadcastFails order now log with
        | (log', .ok _) => (st', log', .ok true)
        | (log', .error e) => (st', log', .error e)
      | (st', false) => (st', log, .ok false)

end OrderService

/-! ## WebSocket message admission
(`middleware/websocketAuth.ts` and the `message` handler of
`index.ts`) -/

/-- Model of `WS_RATE_LIMIT.windowMs = 60 * 1000`. -/
def windowMs : Nat := 60 * 1000

/-- Model of `WS_RATE_LIMIT.maxMessages = 30`. -/
def maxMessages : Nat := 30

/-- Model of `WS_RATE_LIMIT.blockDurationMs = 5 * 60 * 1000`. -/
def blockDurationMs : Nat := 5 * 60 * 1000

/-- The per-socket mutable state used by the middleware:
`isAuthenticated` plus `rateLimitData = {messageCount, lastReset,
isBlocked}`. -/
structure SocketState where
  isAuthenticated : Bool
  messageCount : Nat
  lastReset : Nat
  isBlocked : Bool
  deriving DecidableEq, Repr

/-- An inbound message payload as seen by the middleware: `data.type`
and `data.apiKey`, both possibly absent. -/
structure WsData where
  type : Option String
  apiKey : Option String
  deriving DecidableEq, Repr

/-- Outcome of one middleware invocation: either a structured error
acknowledgment (`callback({error: msg})`, handler not reached) or
pass-through (`return true`). No middleware path disconnects the
socket. -/
inductive MwResult where
  | rejected (msg : String)
  | passed
  deriving DecidableEq, Repr

/-- Model of `requestSchemas.websocketMessage` (Joi): `type` is required and
must be `subscribe`, `unsubscribe` or `ping`; `apiKey` is required
with minimum length 8 exactly when `type` is `subscribe`, and
optional otherwise. -/
def wsSchemaOk (d : WsData) : Bool :=
  (d.type = some "subscribe" || d.type = some "unsubscribe" ||
    d.type = some "ping") &&
  (if d.type = some "subscribe" then
    (match d.apiKey with
     | some k => decide (8 ≤ k.length)
     | none => false)
   else true)

/-- The schema-validation and subscription-authentication tail of the
middleware (`messageAuthMiddleware`, after rate limiting). `cfgKey` is
`config.websocket.apiKey`; `none` models an unset (or empty, hence
falsy) key. The authentication gate fires only for `data.type ===
'subscribe'` with a configured key and an unauthenticated socket; a
missing, empty, or mismatched `apiKey` yields the `Authentication
required` acknowledgment, a matching one authenticates the socket. -/
def validateStep (cfgKey : Option String) (s : SocketState)
    (event : String) (d : WsData) : SocketState × MwResult :=
  if event = "message" || event = "subscribe" || event = "unsubscribe" then
    if !wsSchemaOk d then (s, .rejected "Invalid message format")
    else
      if d.type = some "subscribe" && cfgKey.isSome && !s.isAuthenticated then
        match d.apiKey, cfgKey with
        | some k, some ck =>
          if k = "" || k ≠ ck then (s, .rejected "Authentication required")
          else ({ s with isAuthenticated := true }, .passed)
        | none, some _ => (s, .rejected "Authentication required")
        | _, none => (s, .passed)
      else (s, .passed)
  else (s, .passed)

/-- The sliding-window counting section of the middleware: an expired
window restarts the count at 1; otherwise the message is counted and
exceeding `maxMessages` blocks the socket and rejects the triggering
message. -/
def rateStep (cfgKey : Option String) (s : SocketState)
    (event : String) (d : WsData) (now : Nat) : SocketState × MwResult :=
  if windowMs < now - s.lastReset then
    validateStep cfgKey { s with messageCount := 1, lastReset := now } event d
  else
    let s' := { s with messageCount := s.messageCount + 1 }
    if maxMessages < s'.messageCount then
      ({ s' with isBlocked := true },
        .rejected "Rate limit exceeded. Client temporarily blocked.")
    else
      validateStep cfgKey s' event d

/-- One invocation of `messageAuthMiddleware(socket)(event, data,
callback)` at time `now`: a still-blocked socket is rejected without
counting; an expired block resets the state and falls through to the
rate-limiting, validation and authentication steps. -/
def messageAuthMiddleware (cfgKey : Option String) (s : SocketState)
    (event : String) (d : WsData) (now : Nat) : SocketState × MwResult :=
  if s.isBlocked then
    if now < s.lastReset + blockDurationMs then
      (s, .rejected "Client is temporarily blocked")
    else
      rateStep cfgKey
        { s with isBlocked := false, messageCount := 0, lastReset := now }
        event d now
  else
    rateStep cfgKey s event d now

/-- Visible outcome of the `socket.on('message', ...)` handler in
`index.ts`. -/
inductive MsgOutcome where
  | mwRejected (msg : String)
  | subscribed
  | authRejected
  | unsubscribed
  | pong
  | unknownType
  deriving DecidableEq, Repr

/-- Result of one inbound `message` event: the new socket state, the
membership of the `orders` room, the outcome, and whether any code
path disconnected the socket (none does). -/
structure MsgStepResult where
  state : SocketState
  inOrdersRoom : Bool
  outcome : MsgOutcome
  disconnected : Bool
  deriving DecidableEq, Repr

/-- The `message` handler of `index.ts` composed with the middleware:
on middleware rejection the handler aborts; a `subscribe` joins the
`orders` room only when the (post-middleware) socket is
authenticated, else answers `{error: 'Authentication required'}`;
`unsubscribe` leaves the room; `ping` answers with a pong. No branch
disconnects the socket. -/
def handleMessage (cfgKey : Option String) (s : SocketState)
    (inOrdersRoom : Bool) (d : WsData) (now : Nat) : MsgStepResult :=
  match messageAuthMiddleware cfgKey s "message" d now with
  | (s', .rejected m) => ⟨s', inOrdersRoom, .mwRejected m, false⟩
  | (s', .passed) =>
    match d.type with
    | some "subscribe" =>
      if s'.isAuthenticated then ⟨s', true, .subscribed, false⟩
      else ⟨s', inOrdersRoom, .authRejected, false⟩
    | some "unsubscribe" => ⟨s', false, .unsubscribed, false⟩
    | some "ping" => ⟨s', inOrdersRoom, .pong, false⟩
    | _ => ⟨s', inOrdersRoom, .unknownType, false⟩

/-- A schema-valid `ping` payload, used to exercise the rate limiter
with a message that passes validation and skips the auth gate. -/
def pingData : WsData := ⟨some "ping", none⟩

/-- Run a sequence of `message` events carrying `pingData` at the
given times, collecting the middleware outcomes. -/
def runMessages (cfgKey : Option String) (s : SocketState) :
    List Nat → SocketState × List MwResult
  | [] => (s, [])
  | t :: ts =>
    let (s', r) := messageAuthMiddleware cfgKey s "message" pingData t
    let (s'', rs) := runMessages cfgKey s' ts
    (s'', r :: rs)

/-! ## Specification-side definitions

Predicates and pipelines written from the specification's wording,
used to compare the embedded code against the spec's description. -/

/-- Key uniqueness: no two stored orders share an `id`. -/
def UniqueIds (st : Store) : Prop :=
  st.Pairwise (fun a b => a.id ≠ b.id)

/-- Spec wording of the status filter: the order passes whenever no
status filter is given, and otherwise matches it exactly. -/
def statusMatchSpec (f : OrderFilters) (o : Order) : Prop :=
  ∀ s ∈ f.status, o.status = s

instance (f : OrderFilters) (o : Order) : Decidable (statusMatchSpec f o) :=
  match hf : f.status with
  | some s => decidable_of_iff (o.status = s) (by simp [statusMatchSpec, hf])
  | none => isTrue (by simp [statusMatchSpec, hf])

/-- Spec wording of the search filter: for a given non-empty search
text, a case-insensitive substring match in any one of `id`,
`collectorName`, `address` is sufficient (OR semantics). -/
def searchMatchSpec (f : OrderFilters) (o : Order) : Prop :=
  ∀ t ∈ f.search, t ≠ "" →
    (jsIncludes (jsToLower o.id) (jsToLower t) = true ∨
     jsIncludes (jsToLower o.collectorName) (jsToLower t) = true ∨
     jsIncludes (jsToLower o.address) (jsToLower t) = true)

instance (f : OrderFilters) (o : Order) : Decidable (searchMatchSpec f o) :=
  match hf : f.search with
  | some t =>
    decidable_of_iff
      (t ≠ "" →
        (jsIncludes (jsToLower o.id) (jsToLower t) = true ∨
         jsIncludes (jsToLower o.collectorName) (jsToLower t) = true ∨
         jsIncludes (jsToLower o.address) (jsToLower t) = true))
      (by simp [searchMatchSpec, hf])
  | none => isTrue (by simp [searchMatchSpec, hf])

/-- The amended wording of the `queryByFilters` contract: keep exactly
the orders passing the status filter and the search filter; sort only
when a sort field is supplied (ascending unless the direction is
`desc`); when pagination is supplied, slice to the requested 1-based
page, and otherwise return everything. -/
def querySpecAmended (st : Store) (f : OrderFilters)
    (p : Option PaginationOptions) : List Order :=
  let matchedOrders :=
    st.filter (fun o => decide (statusMatchSpec f o ∧ searchMatchSpec f o))
  let sorted :=
    match p with
    | some pag =>
      match pag.sortBy with
      | some sf =>
        sortCmp (fun a b => dirCmp pag.sortOrder (fieldCmp sf a b)) matchedOrders
      | none => matchedOrders
    | none => matchedOrders
  match p with
  | some pag => ((sorted.drop ((pag.page - 1) * pag.limit)).take pag.limit)
  | none => sorted

end Muta

namespace Muta

open InMemoryOrderRepository SocketIONotificationService

/-! ## Helper lemmas -/

theorem hasId_eq_false_iff (st : Store) (id : String) :
    hasId st id = false ↔ ∀ a ∈ st, a.id ≠ id := by
  simp [hasId]

theorem setEntry_of_fresh (st : Store) (o : Order)
    (h : hasId st o.id = false) : setEntry st o = st ++ [o] := by
  induction st with
  | nil => rfl
  | cons e rest ih =>
    rw [hasId_eq_false_iff] at h
    have he : ¬ (e.id = o.id) := h e (by simp)
    have hrest : hasId rest o.id = false := by
      rw [hasId_eq_false_iff]
      intro a ha
      exact h a (by simp [ha])
    simp [setEntry, he, ih hrest]

theorem findById_hasId (st : Store) (id : String) (o : Order)
    (h : findById st id = some o) : hasId st id = true := by
  have hm := List.find?_some h
  have hmem := List.mem_of_find?_eq_some h
  simp [hasId, List.any_eq_true]
  exact ⟨o, hmem, by simpa using hm⟩

theorem uniqueIds_createStep (st : Store) (o : Order) (t : Nat)
    (h : UniqueIds st) : UniqueIds (createStep st o t).1 := by
  unfold createStep create
  by_cases hd : hasId st o.id
  · simp [hd, h]
  · have hd' : hasId st o.id = false := by simpa using hd
    have hset : setEntry st { o with lastUpdated := t } = st ++ [{ o with lastUpdated := t }] :=
      setEntry_of_fresh st _ hd'
    simp only [hd', Bool.false_eq_true, if_false, hset]
    unfold UniqueIds at h ⊢
    rw [List.pairwise_append]
    refine ⟨h, by simp, ?_⟩
    intro a ha b hb
    simp at hb
    subst hb
    rw [hasId_eq_false_iff] at hd'
    simpa using hd' a ha

theorem uniqueIds_applyCreates (calls : List (Order × Nat)) :
    ∀ st : Store, UniqueIds st → UniqueIds (applyCreates st calls) := by
  induction calls with
  | nil => intro st h; simpa [applyCreates] using h
  | cons c rest ih =>
    intro st h
    obtain ⟨o, t⟩ := c
    simpa [applyCreates] using ih _ (uniqueIds_createStep st o t h)

/-! ## C3 -/

/-- C3: across every sequence of `create` calls starting from the
empty store, no two stored orders share an `id`; and a `create` whose
id is already present fails with the duplicate-id `ValidationError`
and leaves the store unchanged. -/
theorem c3_create_id_uniqueness :
    (∀ calls : List (Order × Nat), UniqueIds (applyCreates [] calls)) ∧
    (∀ (st : Store) (o : Order) (t : Nat), hasId st o.id = true →
      createStep st o t = (st, false) ∧
      create st o t =
        .error (.validationError ("Order with ID " ++ o.id ++ " already exists"))) := by
  constructor
  · intro calls
    exact uniqueIds_applyCreates calls [] (by simp [UniqueIds])
  · intro st o t h
    constructor
    · simp [createStep, create, h]
    · simp [create, h]

/-- Witness for C3 at concrete inputs: two creates that reuse the id
`ORD-AAA` leave a single entry, and the duplicate create at a
populated store is rejected with the store unchanged. -/
theorem c3_witness :
    UniqueIds (applyCreates []
      [(⟨"ORD-AAA", "Main Street 1", .pending, "Ann", 0⟩, 1),
       (⟨"ORD-AAA", "Oak Avenue 2", .completed, "Bob", 2⟩, 3)]) ∧
    createStep [⟨"ORD-AAA", "Main Street 1", .pending, "Ann", 1⟩]
        ⟨"ORD-AAA", "Oak Avenue 2", .completed, "Bob", 2⟩ 3 =
      ([⟨"ORD-AAA", "Main Street 1", .pending, "Ann", 1⟩], false) :=
  ⟨c3_create_id_uniqueness.1 _,
   (c3_create_id_uniqueness.2 [⟨"ORD-AAA", "Main Street 1", .pending, "Ann", 1⟩]
      ⟨"ORD-AAA", "Oak Avenue 2", .completed, "Bob", 2⟩ 3 (by decide)).1⟩

/-! ## C6 -/

/-- C6: `update` on an absent id returns the `null` sentinel without
touching the store; on an existing order it stores the shallow merge,
which keeps the existing `id` (whatever `u.id` says), stamps
`lastUpdated` with the current time, takes each supplied field's new
value, and leaves every unsupplied field at its pre-update value. -/
theorem c6_update_shallow_merge (st : Store) (id : String)
    (u : OrderUpdate) (now : Nat) :
    (findById st id = none → update st id u now = (st, none)) ∧
    (∀ ex, findById st id = some ex →
      (update st id u now).2 = some (mergeOrder ex u now) ∧
      (mergeOrder ex u now).id = ex.id ∧
      (mergeOrder ex u now).lastUpdated = now ∧
      (u.address = none → (mergeOrder ex u now).address = ex.address) ∧
      (∀ v, u.address = some v → (mergeOrder ex u now).address = v) ∧
      (u.status = none → (mergeOrder ex u now).status = ex.status) ∧
      (∀ v, u.status = some v → (mergeOrder ex u now).status = v) ∧
      (u.collectorName = none → (mergeOrder ex u now).collectorName = ex.collectorName) ∧
      (∀ v, u.collectorName = some v → (mergeOrder ex u now).collectorName = v)) := by
  constructor
  · intro h
    simp [update, h]
  · intro ex h
    refine ⟨by simp [update, h], rfl, rfl, ?_, ?_, ?_, ?_, ?_, ?_⟩ <;>
      first
      | (intro hn; simp [mergeOrder, hn])
      | (intro v hv; simp [mergeOrder, hv])

/-- Witness for C6: updating the stored order `ORD-AAA` with only a
new status keeps id, address and collector name, and refreshes
`lastUpdated`. -/
theorem c6_witness :
    (update [⟨"ORD-AAA", "Main Street 1", .pending, "Ann", 1⟩] "ORD-AAA"
        ⟨none, none, some .completed, none, none⟩ 9).2 =
      some ⟨"ORD-AAA", "Main Street 1", .completed, "Ann", 9⟩ ∧
    update [⟨"ORD-AAA", "Main Street 1", .pending, "Ann", 1⟩] "ORD-ZZZ"
        ⟨none, none, some .completed, none, none⟩ 9 =
      ([⟨"ORD-AAA", "Main Street 1", .pending, "Ann", 1⟩], none) := by
  constructor
  · have h := (c6_update_shallow_merge
      [⟨"ORD-AAA", "Main Street 1", .pending, "Ann", 1⟩] "ORD-AAA"
      ⟨none, none, some .completed, none, none⟩ 9).2
      ⟨"ORD-AAA", "Main Street 1", .pending, "Ann", 1⟩ (by decide)
    exact h.1.trans (by decide)
  · exact (c6_update_shallow_merge
      [⟨"ORD-AAA", "Main Street 1", .pending, "Ann", 1⟩] "ORD-ZZZ"
      ⟨none, none, some .completed, none, none⟩ 9).1 (by decide)

/-! ## C10 -/

/-- C10: for every store and every non-empty id — in particular ids
whose order exists — `OrderService.updateOrder` with the empty update
object fails with the `ValidationError` message `No update data
provided` before the repository is touched: the store and the event
log are returned unchanged. -/
theorem c10_empty_update_rejected (broadcastFails : Bool) (st : Store)
    (id : String) (now : Nat) (log : List WSMessage) (h : id ≠ "") :
    OrderService.updateOrder broadcastFails st id OrderUpdate.empty now log =
      (st, log, .error (.validationError "No update data provided")) := by
  simp [OrderService.updateOrder, h, OrderUpdate.empty, OrderUpdate.keyCount]

/-- Witness for C10: the empty update against an id that exists in the
store is rejected with the store unchanged. -/
theorem c10_witness :
    OrderService.updateOrder false
        [⟨"ORD-AAA", "Main Street 1", .pending, "Ann", 1⟩] "ORD-AAA"
        OrderUpdate.empty 9 [] =
      ([⟨"ORD-AAA", "Main Street 1", .pending, "Ann", 1⟩], [],
        .error (.validationError "No update data provided")) :=
  c10_empty_update_rejected false
    [⟨"ORD-AAA", "Main Street 1", .pending, "Ann", 1⟩] "ORD-AAA" 9 [] (by decide)

end Muta

namespace Muta

open InMemoryOrderRepository SocketIONotificationService

/-! ## C1 -/

/-- Counterexample to C1 as stated: with an empty store and a
broadcast that throws, `OrderService.createOrder` performs the store
insert (the order is present afterwards) and yet returns the
notification error to its caller instead of success — the
notification failure is re-thrown by `notifyOrderCreated` and again
by `createOrder`'s catch block, not swallowed. -/
theorem c1_counterexample :
    (OrderService.createOrder true [] ⟨"Main Street 1", .pending, "Ann Smith"⟩
        "ORD-1" 5 []).1 =
      [⟨"ORD-1", "Main Street 1", .pending, "Ann Smith", 5⟩] ∧
    (OrderService.createOrder true [] ⟨"Main Street 1", .pending, "Ann Smith"⟩
        "ORD-1" 5 []).2.2 = .error .notifyFailed := by
  constructor <;> rfl

/-- C1 (amended): when the store mutation succeeds and notification
delivery throws, the single-order mutations `createOrder`,
`updateOrder` and `deleteOrder` keep the mutated store (no rollback)
but log and re-throw the notification error, so the failure does
propagate to the mutation's caller. -/
theorem c1_notify_failure_propagates (st : Store) (inp : OrderInput)
    (newId id : String) (u : OrderUpdate) (now : Nat) (log : List WSMessage) :
    (hasId st newId = false →
      OrderService.createOrder true st inp newId now log =
        (st ++ [⟨newId, inp.address, inp.status, inp.collectorName, now⟩],
          log, .error .notifyFailed)) ∧
    (∀ ex, id ≠ "" → u.keyCount ≠ 0 → findById st id = some ex →
      OrderService.updateOrder true st id u now log =
        (setEntry st (mergeOrder ex u now), log, .error .notifyFailed)) ∧
    (∀ ex, id ≠ "" → findById st id = some ex →
      OrderService.deleteOrder true st id now log =
        (deleteEntry st id, log, .error .notifyFailed)) := by
  refine ⟨?_, ?_, ?_⟩
  · intro h
    have hset := setEntry_of_fresh st
      ⟨newId, inp.address, inp.status, inp.collectorName, now⟩ h
    simp [OrderService.createOrder, create, h, hset,
      notifyOrderCreated, broadcast]
  · intro ex hid hk h
    simp [OrderService.updateOrder, hid, hk, update, h,
      notifyOrderUpdated, broadcast]
  · intro ex hid h
    have hh := findById_hasId st id ex h
    simp [OrderService.deleteOrder, hid, h, delete, hh,
      notifyOrderDeleted, broadcast]

/-- Witness for C1's amended statement: a concrete failing broadcast
during create on an empty store, and during update and delete of the
stored order `ORD-AAA`. -/
theorem c1_witness :
    OrderService.createOrder true [] ⟨"Main Street 1", .pending, "Ann Smith"⟩
        "ORD-2" 7 [] =
      ([⟨"ORD-2", "Main Street 1", .pending, "Ann Smith", 7⟩], [],
        .error .notifyFailed) ∧
    OrderService.deleteOrder true [⟨"ORD-AAA", "Main Street 1", .pending, "Ann", 1⟩]
        "ORD-AAA" 9 [] =
      ([], [], .error .notifyFailed) := by
  constructor
  · exact (c1_notify_failure_propagates [] ⟨"Main Street 1", .pending, "Ann Smith"⟩
      "ORD-2" "x" OrderUpdate.empty 7 []).1 (by decide)
  · have h := (c1_notify_failure_propagates
      [⟨"ORD-AAA", "Main Street 1", .pending, "Ann", 1⟩]
      ⟨"Main Street 1", .pending, "Ann Smith"⟩ "ORD-2" "ORD-AAA"
      OrderUpdate.empty 9 []).2.2
      ⟨"ORD-AAA", "Main Street 1", .pending, "Ann", 1⟩ (by decide) (by decide)
    exact h.trans (by rfl)

/-! ## C7 -/

/-- C7: with notification delivery succeeding, a successful create
appends exactly one `order-created` event whose payload is exactly
the stored order; deleting a nonexistent id emits zero events and
leaves the store alone; a successful delete fetches the order before
deleting it and emits exactly one `order-deleted` event carrying that
pre-delete snapshot. -/
theorem c7_notification_on_mutation (st : Store) (id newId : String)
    (inp : OrderInput) (now : Nat) (log : List WSMessage) :
    (hasId st newId = false →
      OrderService.createOrder false st inp newId now log =
        (st ++ [⟨newId, inp.address, inp.status, inp.collectorName, now⟩],
          log ++ [⟨.orderCreated, ⟨newId, inp.address, inp.status, inp.collectorName, now⟩, now⟩],
          .ok ⟨newId, inp.address, inp.status, inp.collectorName, now⟩)) ∧
    (id ≠ "" → findById st id = none →
      OrderService.deleteOrder false st id now log = (st, log, .ok false)) ∧
    (∀ ex, id ≠ "" → findById st id = some ex →
      OrderService.deleteOrder false st id now log =
        (deleteEntry st id, log ++ [⟨.orderDeleted, ex, now⟩], .ok true)) := by
  refine ⟨?_, ?_, ?_⟩
  · intro h
    have hset := setEntry_of_fresh st
      ⟨newId, inp.address, inp.status, inp.collectorName, now⟩ h
    simp [OrderService.createOrder, create, h, hset,
      notifyOrderCreated, broadcast]
  · intro hid h
    simp [OrderService.deleteOrder, hid, h]
  · intro ex hid h
    have hh := findById_hasId st id ex h
    simp [OrderService.deleteOrder, hid, h, delete, hh,
      notifyOrderDeleted, broadcast]

/-- Witness for C7: one concrete create emits exactly its one
`order-created` event, deleting the absent id `ORD-ZZZ` emits
nothing, and deleting `ORD-AAA` emits its pre-delete snapshot. -/
theorem c7_witness :
    OrderService.createOrder false [] ⟨"Main Street 1", .pending, "Ann Smith"⟩
        "ORD-3" 4 [] =
      ([⟨"ORD-3", "Main Street 1", .pending, "Ann Smith", 4⟩],
        [⟨.orderCreated, ⟨"ORD-3", "Main Street 1", .pending, "Ann Smith", 4⟩, 4⟩],
        .ok ⟨"ORD-3", "Main Street 1", .pending, "Ann Smith", 4⟩) ∧
    OrderService.deleteOrder false [⟨"ORD-AAA", "Main Street 1", .pending, "Ann", 1⟩]
        "ORD-ZZZ" 9 [] =
      ([⟨"ORD-AAA", "Main Street 1", .pending, "Ann", 1⟩], [], .ok false) ∧
    OrderService.deleteOrder false [⟨"ORD-AAA", "Main Street 1", .pending, "Ann", 1⟩]
        "ORD-AAA" 9 [] =
      ([], [⟨.orderDeleted, ⟨"ORD-AAA", "Main Street 1", .pending, "Ann", 1⟩, 9⟩],
        .ok true) := by
  refine ⟨?_, ?_, ?_⟩
  · exact (c7_notification_on_mutation [] "x" "ORD-3"
      ⟨"Main Street 1", .pending, "Ann Smith"⟩ 4 []).1 (by decide)
  · exact (c7_notification_on_mutation
      [⟨"ORD-AAA", "Main Street 1", .pending, "Ann", 1⟩] "ORD-ZZZ" "y"
      ⟨"Main Street 1", .pending, "Ann Smith"⟩ 9 []).2.1 (by decide) (by decide)
  · have h := (c7_notification_on_mutation
      [⟨"ORD-AAA", "Main Street 1", .pending, "Ann", 1⟩] "ORD-AAA" "y"
      ⟨"Main Street 1", .pending, "Ann Smith"⟩ 9 []).2.2
      ⟨"ORD-AAA", "Main Street 1", .pending, "Ann", 1⟩ (by decide) (by decide)
    exact h.trans (by rfl)

end Muta

namespace Muta

/-! ## C4 -/

theorem validateStep_ping (cfgKey : Option String) (s : SocketState) :
    validateStep cfgKey s "message" pingData = (s, .passed) := by
  simp [validateStep, pingData, wsSchemaOk]

theorem runMessages_under_limit (cfgKey : Option String) (auth : Bool)
    (t0 : Nat) :
    ∀ (ts : List Nat) (k : Nat), (∀ t ∈ ts, t - t0 ≤ windowMs) →
      k + ts.length ≤ maxMessages →
      runMessages cfgKey ⟨auth, k, t0, false⟩ ts =
        (⟨auth, k + ts.length, t0, false⟩, ts.map fun _ => MwResult.passed) := by
  intro ts
  induction ts with
  | nil => intro k _ _; simp [runMessages]
  | cons t rest ih =>
    intro k hw hk
    have ht : ¬ (windowMs < t - t0) := by
      have := hw t (by simp)
      omega
    have hc : ¬ (maxMessages < k + 1) := by
      simp at hk
      omega
    have hstep : messageAuthMiddleware cfgKey ⟨auth, k, t0, false⟩ "message" pingData t =
        (⟨auth, k + 1, t0, false⟩, .passed) := by
      simp [messageAuthMiddleware, rateStep, ht, hc, validateStep_ping]
    have hrest : ∀ t' ∈ rest, t' - t0 ≤ windowMs := by
      intro t' h'
      exact hw t' (by simp [h'])
    have hk' : (k + 1) + rest.length ≤ maxMessages := by
      simp at hk
      omega
    simp [runMessages, hstep, ih (k + 1) hrest hk']
    omega

/-- C4: starting from an unblocked session with a fresh counter, all
30 messages arriving inside the 60-second window are admitted; the
31st message in the same window is rejected with the rate-limit error
and blocks the session; while the 5-minute block (counted from the
window start `lastReset`) has not elapsed every message is rejected
as temporarily blocked without state change; and the first message at
or after block expiry is admitted again with the counter reset to 1. -/
theorem c4_rate_limit_window (cfgKey : Option String) (auth : Bool)
    (t0 : Nat) (ts : List Nat) (t31 tb t32 : Nat)
    (hlen : ts.length = 30) (hw : ∀ t ∈ ts, t - t0 ≤ windowMs)
    (h31 : t31 - t0 ≤ windowMs)
    (hb : tb < t0 + blockDurationMs)
    (h32 : t0 + blockDurationMs ≤ t32) :
    runMessages cfgKey ⟨auth, 0, t0, false⟩ ts =
      (⟨auth, 30, t0, false⟩, List.replicate 30 .passed) ∧
    messageAuthMiddleware cfgKey ⟨auth, 30, t0, false⟩ "message" pingData t31 =
      (⟨auth, 31, t0, true⟩,
        .rejected "Rate limit exceeded. Client temporarily blocked.") ∧
    messageAuthMiddleware cfgKey ⟨auth, 31, t0, true⟩ "message" pingData tb =
      (⟨auth, 31, t0, true⟩, .rejected "Client is temporarily blocked") ∧
    messageAuthMiddleware cfgKey ⟨auth, 31, t0, true⟩ "message" pingData t32 =
      (⟨auth, 1, t32, false⟩, .passed) := by
  refine ⟨?_, ?_, ?_, ?_⟩
  · have h := runMessages_under_limit cfgKey auth t0 ts 0 hw (by simp [maxMessages, hlen])
    rw [h, List.map_const', hlen]
  · have ht : ¬ (windowMs < t31 - t0) := by omega
    simp [messageAuthMiddleware, rateStep, ht, maxMessages]
  · simp [messageAuthMiddleware, hb]
  · have hge : ¬ (t32 < t0 + blockDurationMs) := by omega
    have ht : ¬ (windowMs < t32 - t32) := by omega
    simp [messageAuthMiddleware, hge, rateStep, ht, validateStep_ping, maxMessages]

/-- Witness for C4: thirty messages at time 0, a 31st at time 50000
still inside the window, a blocked attempt at 100000, and an accepted
message at exactly `blockDurationMs`. -/
theorem c4_witness :
    runMessages none ⟨false, 0, 0, false⟩ (List.replicate 30 0) =
      (⟨false, 30, 0, false⟩, List.replicate 30 .passed) ∧
    messageAuthMiddleware none ⟨false, 30, 0, false⟩ "message" pingData 50000 =
      (⟨false, 31, 0, true⟩,
        .rejected "Rate limit exceeded. Client temporarily blocked.") ∧
    messageAuthMiddleware none ⟨false, 31, 0, true⟩ "message" pingData 100000 =
      (⟨false, 31, 0, true⟩, .rejected "Client is temporarily blocked") ∧
    messageAuthMiddleware none ⟨false, 31, 0, true⟩ "message" pingData 300000 =
      (⟨false, 1, 300000, false⟩, .passed) :=
  c4_rate_limit_window none false 0 (List.replicate 30 0) 50000 100000 300000
    (by decide) (by intro t h; simp at h; simp [h, windowMs])
    (by decide) (by decide) (by decide)

end Muta

namespace Muta

/-! ## C8 -/

/-- Counterexample to C8 as stated: an already-authenticated session
sending `subscribe` without an `apiKey` field is not admitted — the
Joi schema demands an `apiKey` of length at least 8 on every
`subscribe`, so the middleware rejects the message as invalid format
even though prior authentication should suffice per the claim. -/
theorem c8_counterexample :
    (⟨true, 0, 0, false⟩ : SocketState).isAuthenticated = true ∧
    handleMessage (some "secretkey123") ⟨true, 0, 0, false⟩ false
        ⟨some "subscribe", none⟩ 0 =
      ⟨⟨true, 1, 0, false⟩, false, .mwRejected "Invalid message format", false⟩ := by
  constructor <;> rfl

/-- C8 (amended): a `subscribe` message that passes the rate limiter
is admitted to the `orders` room exactly when it passes the schema
(which demands a shared-secret field of length at least 8 on every
subscribe, even from an authenticated session) and the session is
already authenticated or the carried field equals the configured
secret; every rejection is an error acknowledgment and no path
disconnects the socket. -/
theorem c8_subscribe_admission (cfgKey : Option String) (s : SocketState)
    (d : WsData) (now : Nat)
    (hb : s.isBlocked = false) (hwin : now - s.lastReset ≤ windowMs)
    (hcnt : s.messageCount < maxMessages)
    (hty : d.type = some "subscribe") :
    ((handleMessage cfgKey s false d now).inOrdersRoom = true ↔
      (wsSchemaOk d = true ∧
        (s.isAuthenticated = true ∨ (cfgKey.isSome = true ∧ d.apiKey = cfgKey)))) ∧
    (handleMessage cfgKey s false d now).disconnected = false ∧
    ((handleMessage cfgKey s false d now).inOrdersRoom = false →
      (∃ m, (handleMessage cfgKey s false d now).outcome = .mwRejected m) ∨
        (handleMessage cfgKey s false d now).outcome = .authRejected) := by
  have hlt : ¬ (windowMs < now - s.lastReset) := by omega
  have hlt2 : ¬ (maxMessages < s.messageCount + 1) := by omega
  obtain ⟨dty, dkey⟩ := d
  have hdty : dty = some "subscribe" := hty
  subst hdty
  have hmw : messageAuthMiddleware cfgKey s "message" ⟨some "subscribe", dkey⟩ now =
      validateStep cfgKey { s with messageCount := s.messageCount + 1 }
        "message" ⟨some "subscribe", dkey⟩ := by
    simp [messageAuthMiddleware, hb, rateStep, hlt, hlt2]
  by_cases hschema : wsSchemaOk ⟨some "subscribe", dkey⟩ = true
  · by_cases hauth : s.isAuthenticated = true
    · have hres : handleMessage cfgKey s false ⟨some "subscribe", dkey⟩ now =
          ⟨{ s with messageCount := s.messageCount + 1 }, true, .subscribed, false⟩ := by
        unfold handleMessage
        rw [hmw]
        have hv : validateStep cfgKey { s with messageCount := s.messageCount + 1 }
            "message" ⟨some "subscribe", dkey⟩ =
            ({ s with messageCount := s.messageCount + 1 }, .passed) := by
          simp [validateStep, hschema, hauth]
        rw [hv]
        simp [hauth]
      rw [hres]
      simp [hschema, hauth]
    · have hauth' : s.isAuthenticated = false := by simpa using hauth
      rcases cfgKey with _ | ck
      · have hres : handleMessage none s false ⟨some "subscribe", dkey⟩ now =
            ⟨{ s with messageCount := s.messageCount + 1 }, false, .authRejected, false⟩ := by
          unfold handleMessage
          rw [hmw]
          have hv : validateStep none { s with messageCount := s.messageCount + 1 }
              "message" ⟨some "subscribe", dkey⟩ =
              ({ s with messageCount := s.messageCount + 1 }, .passed) := by
            simp [validateStep, hschema]
          rw [hv]
          simp [hauth']
        rw [hres]
        simp [hschema, hauth']
      · rcases dkey with _ | k
        · have hres : handleMessage (some ck) s false ⟨some "subscribe", none⟩ now =
              ⟨{ s with messageCount := s.messageCount + 1 }, false,
                .mwRejected "Authentication required", false⟩ := by
            unfold handleMessage
            rw [hmw]
            have hv : validateStep (some ck) { s with messageCount := s.messageCount + 1 }
                "message" ⟨some "subscribe", none⟩ =
                ({ s with messageCount := s.messageCount + 1 },
                  .rejected "Authentication required") := by
              simp [validateStep, hschema, hauth']
            rw [hv]
          rw [hres]
          simp [hschema, hauth']
        · have hk8 : 8 ≤ k.length := by
            simp [wsSchemaOk] at hschema
            exact hschema
          have hne : ¬ (k = "") := by
            intro h
            subst h
            simp at hk8
          by_cases hkk : k = ck
          · subst hkk
            have hres : handleMessage (some k) s false ⟨some "subscribe", some k⟩ now =
                ⟨{ s with messageCount := s.messageCount + 1, isAuthenticated := true },
                  true, .subscribed, false⟩ := by
              unfold handleMessage
              rw [hmw]
              have hv : validateStep (some k) { s with messageCount := s.messageCount + 1 }
                  "message" ⟨some "subscribe", some k⟩ =
                  ({ s with messageCount := s.messageCount + 1, isAuthenticated := true },
                    .passed) := by
                simp [validateStep, hschema, hauth', hne]
              rw [hv]
              simp
            rw [hres]
            simp [hschema]
          · have hres : handleMessage (some ck) s false ⟨some "subscribe", some k⟩ now =
                ⟨{ s with messageCount := s.messageCount + 1 }, false,
                  .mwRejected "Authentication required", false⟩ := by
              unfold handleMessage
              rw [hmw]
              have hv : validateStep (some ck) { s with messageCount := s.messageCount + 1 }
                  "message" ⟨some "subscribe", some k⟩ =
                  ({ s with messageCount := s.messageCount + 1 },
                    .rejected "Authentication required") := by
                simp [validateStep, hschema, hauth', hkk]
              rw [hv]
            rw [hres]
            simp [hschema, hauth', hkk]
  · have hschema' : wsSchemaOk ⟨some "subscribe", dkey⟩ = false := by simpa using hschema
    have hres : handleMessage cfgKey s false ⟨some "subscribe", dkey⟩ now =
        ⟨{ s with messageCount := s.messageCount + 1 }, false,
          .mwRejected "Invalid message format", false⟩ := by
      unfold handleMessage
      rw [hmw]
      have hv : validateStep cfgKey { s with messageCount := s.messageCount + 1 }
          "message" ⟨some "subscribe", dkey⟩ =
          ({ s with messageCount := s.messageCount + 1 },
            .rejected "Invalid message format") := by
        simp [validateStep, hschema']
      rw [hv]
    rw [hres]
    simp [hschema']

/-- Witness for C8's amended statement: an unauthenticated fresh
session carrying the configured secret `secretkey1` is admitted. -/
theorem c8_witness :
    (handleMessage (some "secretkey1") ⟨false, 0, 0, false⟩ false
        ⟨some "subscribe", some "secretkey1"⟩ 0).inOrdersRoom = true :=
  (c8_subscribe_admission (some "secretkey1") ⟨false, 0, 0, false⟩
      ⟨some "subscribe", some "secretkey1"⟩ 0
      (by decide) (by decide) (by decide) rfl).1.mpr
    ⟨by decide, Or.inr ⟨by decide, rfl⟩⟩

end Muta

namespace Muta

open InMemoryOrderRepository

/-! ## C2 -/

theorem filters_eq_spec (st : Store) (f : OrderFilters) :
    applySearchFilter f (applyStatusFilter f st) =
      st.filter (fun o => decide (statusMatchSpec f o ∧ searchMatchSpec f o)) := by
  obtain ⟨fs, fr⟩ := f
  cases fs with
  | none =>
    cases fr with
    | none =>
      simp only [applyStatusFilter, applySearchFilter]
      rw [eq_comm, List.filter_eq_self]
      intro a _
      simp [statusMatchSpec, searchMatchSpec]
    | some t =>
      by_cases ht : t = ""
      · subst ht
        simp only [applyStatusFilter, applySearchFilter, if_true]
        rw [eq_comm, List.filter_eq_self]
        intro a _
        simp [statusMatchSpec, searchMatchSpec]
      · simp only [applyStatusFilter, applySearchFilter, if_neg ht]
        apply List.filter_congr
        intro o _
        simp [statusMatchSpec, searchMatchSpec, ht, Bool.or_assoc]
  | some sv =>
    cases fr with
    | none =>
      simp only [applyStatusFilter, applySearchFilter]
      apply List.filter_congr
      intro o _
      simp [statusMatchSpec, searchMatchSpec]
    | some t =>
      by_cases ht : t = ""
      · subst ht
        simp only [applyStatusFilter, applySearchFilter, if_true]
        apply List.filter_congr
        intro o _
        simp [statusMatchSpec, searchMatchSpec]
      · simp only [applyStatusFilter, applySearchFilter, if_neg ht,
          List.filter_filter]
        apply List.filter_congr
        intro o _
        by_cases h1 : o.status = sv <;>
          by_cases h2 : jsIncludes (jsToLower o.id) (jsToLower t) = true <;>
          by_cases h3 : jsIncludes (jsToLower o.collectorName) (jsToLower t) = true <;>
          by_cases h4 : jsIncludes (jsToLower o.address) (jsToLower t) = true <;>
          simp [statusMatchSpec, searchMatchSpec, h1, h2, h3, h4, ht]

/-- Counterexample to C2 as stated: with no sort field supplied,
`findByFilters` performs no sorting at all — the page comes back in
insertion order `[ORD-A, ORD-B]` (ascending `lastUpdated` 10, 20),
not in the claimed default `lastUpdated`-descending order
`[ORD-B, ORD-A]`. -/
theorem c2_counterexample :
    (findByFilters
        [⟨"ORD-A", "Addr One", .pending, "Ann", 10⟩,
         ⟨"ORD-B", "Addr Two", .pending, "Bob", 20⟩]
        ⟨none, none⟩ (some ⟨1, 10, none, none⟩)).data =
      [⟨"ORD-A", "Addr One", .pending, "Ann", 10⟩,
       ⟨"ORD-B", "Addr Two", .pending, "Bob", 20⟩] ∧
    (findByFilters
        [⟨"ORD-A", "Addr One", .pending, "Ann", 10⟩,
         ⟨"ORD-B", "Addr Two", .pending, "Bob", 20⟩]
        ⟨none, none⟩ (some ⟨1, 10, none, none⟩)).data ≠
      [⟨"ORD-B", "Addr Two", .pending, "Bob", 20⟩,
       ⟨"ORD-A", "Addr One", .pending, "Ann", 10⟩] := by
  constructor
  · rfl
  · decide

/-- C2 (amended): `findByFilters` returns exactly the spec-side
pipeline — status equality filter and case-insensitive OR substring
search over `id`, `collectorName`, `address` (fused into one filter),
then a sort only when a sort field is supplied (ascending unless the
direction is `desc`), no sorting otherwise, and finally the slice to
the requested 1-based page. -/
theorem c2_query_pipeline (st : Store) (f : OrderFilters)
    (p : Option PaginationOptions) :
    (findByFilters st f p).data = querySpecAmended st f p := by
  cases p with
  | none =>
    simp [findByFilters, querySpecAmended, applySort, applySlice,
      filters_eq_spec]
  | some pag =>
    obtain ⟨pg, lim, sb, sd⟩ := pag
    cases sb with
    | none =>
      simp [findByFilters, querySpecAmended, applySort, sortStage,
        applySlice, filters_eq_spec]
    | some sf =>
      simp [findByFilters, querySpecAmended, applySort, sortStage,
        applySlice, filters_eq_spec]

/-! ## C5 -/

/-- Counterexample to C5 as stated: with pagination supplied and
`pageSize = 0`, slicing does occur (the single matching order is
dropped and the page is empty) and `totalPages` is the non-finite
`Math.ceil(1 / 0)`, not `1`. -/
theorem c5_counterexample :
    (findByFilters [⟨"ORD-A", "Addr One", .pending, "Ann", 10⟩]
        ⟨none, none⟩ (some ⟨1, 0, none, none⟩)).pagination.total = 1 ∧
    (findByFilters [⟨"ORD-A", "Addr One", .pending, "Ann", 10⟩]
        ⟨none, none⟩ (some ⟨1, 0, none, none⟩)).data = [] ∧
    (findByFilters [⟨"ORD-A", "Addr One", .pending, "Ann", 10⟩]
        ⟨none, none⟩ (some ⟨1, 0, none, none⟩)).pagination.totalPages ≠
      some 1 := by
  refine ⟨rfl, rfl, by decide⟩

/-- C5 (amended): with pagination supplied and a positive `pageSize`,
`totalPages = ceil(totalMatching / pageSize)`; with pagination absent
`totalPages = 1` and no slicing occurs (the whole filtered list is

returned); with pagination supplied and `pageSize = 0` the page is
empty and `totalPages` is the non-finite marker. -/
theorem c5_total_pages (st : Store) (f : OrderFilters) :
    (∀ pag : PaginationOptions, 0 < pag.limit →
      (findByFilters st f (some pag)).pagination.totalPages =
        some (((findByFilters st f (some pag)).pagination.total +
          pag.limit - 1) / pag.limit)) ∧
    ((findByFilters st f none).data =
        applySearchFilter f (applyStatusFilter f st) ∧
      (findByFilters st f none).pagination.totalPages = some 1) ∧
    (∀ pag : PaginationOptions, pag.limit = 0 →
      (findByFilters st f (some pag)).data = [] ∧
      (findByFilters st f (some pag)).pagination.totalPages = none) := by
  refine ⟨?_, ⟨?_, ?_⟩, ?_⟩
  · intro pag hl
    have hne : pag.limit ≠ 0 := by omega
    simp [findByFilters, jsCeilDiv, hne]
  · simp [findByFilters, applySort, applySlice]
  · rfl
  · intro pag hl
    constructor
    · simp [findByFilters, applySlice, hl]
    · simp [findByFilters, jsCeilDiv, hl]

/-- Witness for C5: the one-order store with `pageSize = 2` reports
`totalPages = 1`, and the pagination-free query returns the full
store. -/
theorem c5_witness :
    (findByFilters [⟨"ORD-A", "Addr One", .pending, "Ann", 10⟩]
        ⟨none, none⟩ (some ⟨1, 2, none, none⟩)).pagination.totalPages =
      some 1 ∧
    (findByFilters [⟨"ORD-A", "Addr One", .pending, "Ann", 10⟩]
        ⟨none, none⟩ none).data =
      [⟨"ORD-A", "Addr One", .pending, "Ann", 10⟩] := by
  constructor
  · have h := (c5_total_pages [⟨"ORD-A", "Addr One", .pending, "Ann", 10⟩]
      ⟨none, none⟩).1 ⟨1, 2, none, none⟩ (by decide)
    exact h.trans (by rfl)
  · have h := (c5_total_pages [⟨"ORD-A", "Addr One", .pending, "Ann", 10⟩]
      ⟨none, none⟩).2.1.1
    exact h.trans (by rfl)

/-! ## C9 -/

theorem join_pages (n : Nat) (_hn : 0 < n) :
    ∀ (k : Nat) (l : List Order), l.length ≤ k * n →
      ((List.range k).map (fun i => ((l.drop (i * n)).take n))).flatten = l := by
  intro k
  induction k with
  | zero =>
    intro l hl
    simp at hl
    simp [hl]
  | succ k ih =>
    intro l hl
    rw [List.range_succ_eq_map, List.map_cons, List.map_map]
    have hmap :
        (List.range k).map ((fun i => ((l.drop (i * n)).take n)) ∘ Nat.succ) =
          (List.range k).map (fun i => (((l.drop n).drop (i * n)).take n)) := by
      apply List.map_congr_left
      intro i _
      simp only [Function.comp]
      rw [List.drop_drop]
      congr 2
      rw [Nat.succ_mul]
      ring
    rw [hmap, List.flatten_cons]
    have hlen : (l.drop n).length ≤ k * n := by
      rw [List.length_drop]
      have : l.length ≤ (k + 1) * n := hl
      have h2 : (k + 1) * n = k * n + n := by ring
      omega
    rw [ih (l.drop n) hlen]
    simp [List.take_append_drop]

/-- C9: for every store, filter and sort choice, and every positive
page size `n`, concatenating the `data` of pages `1..totalPages` of
`findByFilters` reproduces the whole filtered-and-sorted list — each
element exactly once, in the served order — and every page reports
that same `totalPages = ceil(totalMatching / n)`. -/
theorem c9_pagination_exhaustive (st : Store) (f : OrderFilters)
    (sb : Option SortField) (sd : Option SortDir) (n : Nat) (hn : 0 < n) :
    (((List.range
          (((sortStage sb sd (applySearchFilter f (applyStatusFilter f st))).length
            + n - 1) / n)).map
        (fun i => (findByFilters st f (some ⟨i + 1, n, sb, sd⟩)).data)).flatten =
      sortStage sb sd (applySearchFilter f (applyStatusFilter f st))) ∧
    (∀ pg : Nat, (findByFilters st f (some ⟨pg, n, sb, sd⟩)).pagination.totalPages =
      some (((sortStage sb sd (applySearchFilter f (applyStatusFilter f st))).length
        + n - 1) / n)) := by
  have hne : n ≠ 0 := by omega
  constructor
  · have hpage : ∀ i : Nat,
        (findByFilters st f (some ⟨i + 1, n, sb, sd⟩)).data =
          (((sortStage sb sd (applySearchFilter f (applyStatusFilter f st))).drop
            (i * n)).take n) := by
      intro i
      simp [findByFilters, applySort, applySlice]
    have hmap : (List.range
          (((sortStage sb sd (applySearchFilter f (applyStatusFilter f st))).length
            + n - 1) / n)).map
          (fun i => (findByFilters st f (some ⟨i + 1, n, sb, sd⟩)).data) =
        (List.range
          (((sortStage sb sd (applySearchFilter f (applyStatusFilter f st))).length
            + n - 1) / n)).map
          (fun i =>
            (((sortStage sb sd (applySearchFilter f (applyStatusFilter f st))).drop
              (i * n)).take n)) := by
      apply List.map_congr_left
      intro i _
      exact hpage i
    rw [hmap]
    apply join_pages n hn
    have h := Nat.div_add_mod
      ((sortStage sb sd (applySearchFilter f (applyStatusFilter f st))).length + n - 1) n
    have h2 := Nat.mod_lt
      ((sortStage sb sd (applySearchFilter f (applyStatusFilter f st))).length + n - 1) hn
    have h3 : (((sortStage sb sd (applySearchFilter f (applyStatusFilter f st))).length
        + n - 1) / n) * n =
        n * (((sortStage sb sd (applySearchFilter f (applyStatusFilter f st))).length
        + n - 1) / n) := Nat.mul_comm _ _
    omega
  · intro pg
    simp [findByFilters, applySort, jsCeilDiv, hne]

/-- Witness for C9: a three-order store paged with `n = 2` and no
sort field: the two pages concatenate back to the full list, and the
page metadata reports 2 total pages. -/
theorem c9_witness :
    (((List.range 2).map
        (fun i => (findByFilters
          [⟨"ORD-A", "Addr One", .pending, "Ann", 10⟩,
           ⟨"ORD-B", "Addr Two", .pending, "Bob", 20⟩,
           ⟨"ORD-C", "Addr Three", .completed, "Cyd", 30⟩]
          ⟨none, none⟩ (some ⟨i + 1, 2, none, none⟩)).data)).flatten =
      [⟨"ORD-A", "Addr One", .pending, "Ann", 10⟩,
       ⟨"ORD-B", "Addr Two", .pending, "Bob", 20⟩,
       ⟨"ORD-C", "Addr Three", .completed, "Cyd", 30⟩]) := by
  exact (c9_pagination_exhaustive
    [⟨"ORD-A", "Addr One", .pending, "Ann", 10⟩,
     ⟨"ORD-B", "Addr Two", .pending, "Bob", 20⟩,
     ⟨"ORD-C", "Addr Three", .completed, "Cyd", 30⟩]
    ⟨none, none⟩ none none 2 (by decide)).1

end Muta
